import Mathlib

/-!
Verification of the paperxyz/embedded-wallet-sdk communication layer.

The development shallowly embeds:
 - the Link/Target Resolver `createEmbeddedWalletIframeLink`
   (src/utils/iFrameCommunication/EmbeddedWalletIframeCommunicator.ts),
 - the iframe identities of the two communicator classes,
 - the wallet methods `getUserWalletStatus`, `postWalletSetUp`, `setChain`
   (src/lib/EmbeddedWallets/EmbeddedWallet.ts),
 - the cross-context RPC channel lifecycle (readiness handshake, one-shot
   initialization payload, teardown); the base class implementing it is
   not among the available sources, so it is modelled from the spec.

JS `URL` / `URLSearchParams` are modelled only as far as the sources use
them: `new URL(path, base)` with a path reference (query parsed from the
part after `?`, fragment stripped), and `searchParams.set`, which updates
the first entry with the given key, drops the other entries with that key,
and appends when the key is absent.
-/

namespace EmbeddedWalletSDK

/-- A query-parameter value as allowed by `createEmbeddedWalletIframeLink`:
`string | number` in the source. -/
inductive QueryValue where
  | str : String → QueryValue
  | num : Int → QueryValue
deriving DecidableEq

/-- JS `.toString()` on a query value. -/
def QueryValue.toStr : QueryValue → String
  | .str s => s
  | .num n => toString n

/-- JS `queryParams[queryKey]?.toString() || ""`: an `undefined` value
(modelled as `none`) serializes as `""`; the `|| ""` also maps a falsy
(empty) string to `""`. -/
def serializeParamValue : Option QueryValue → String
  | none => ""
  | some v => if v.toStr = "" then "" else v.toStr

/-- The parts of a WHATWG URL the sources observe. -/
structure URL where
  origin : String
  pathname : String
  searchParams : List (String × String)
deriving DecidableEq

/-- Drop every query entry with the given key. -/
def removeParam (ps : List (String × String)) (k : String) : List (String × String) :=
  ps.filter (fun p => !(p.1 == k))

/-- `URLSearchParams.set`: replace the value of the first entry with this
key and delete the other entries with it, or append when absent. -/
def setParam : List (String × String) → String → String → List (String × String)
  | [], k, v => [(k, v)]
  | p :: ps, k, v =>
      if p.1 == k then (k, v) :: removeParam ps k
      else p :: setParam ps k v

/-- `URLSearchParams.get`: value of the first entry with this key. -/
def getParam : List (String × String) → String → Option String
  | [], _ => none
  | p :: ps, k => if p.1 == k then some p.2 else getParam ps k

/-- Split a character list at a separator character (kernel-reducible
counterpart of `String.splitOn` for one-character separators). -/
def splitCharAux (c : Char) : List Char → List Char → List String
  | [], acc => [String.mk acc.reverse]
  | x :: xs, acc =>
      if x == c then String.mk acc.reverse :: splitCharAux c xs []
      else splitCharAux c xs (x :: acc)

/-- Split a string at a separator character; always nonempty. -/
def splitChar (c : Char) (s : String) : List String :=
  splitCharAux c s.data []

/-- Join strings with a separator character. -/
def joinChar (c : Char) : List String → String
  | [] => ""
  | [s] => s
  | s :: rest => s ++ String.mk [c] ++ joinChar c rest

/-- Whether a path reference is absolute (starts with `/`). -/
def hasLeadingSlash (s : String) : Bool :=
  match s.data with
  | '/' :: _ => true
  | _ => false

/-- One `k=v` (or bare `k`) component of a query string. -/
def parseQueryPair (kv : String) : String × String :=
  match splitChar '=' kv with
  | [] => ("", "")
  | k :: rest => (k, joinChar '=' rest)

/-- Parse a query string into its entries. -/
def parseQuery (q : String) : List (String × String) :=
  if q = "" then [] else (splitChar '&' q).map parseQueryPair

/-- Split a path reference into path-and-query, dropping any fragment. -/
def splitRef (path : String) : String × String :=
  let noFrag := (splitChar '#' path).headD ""
  match splitChar '?' noFrag with
  | [] => ("", "")
  | p :: rest => (p, joinChar '?' rest)

/-- Resolve the path component of a path reference against a base URL. -/
def resolvePathname (p : String) (base : URL) : String :=
  if hasLeadingSlash p then p
  else if p = "" then base.pathname
  else joinChar '/' ((splitChar '/' base.pathname).dropLast) ++ "/" ++ p

/-- JS `new URL(path, base)` for a path reference: the origin comes from
the base, the path and query from the reference. -/
def newURL (path : String) (base : URL) : URL :=
  { origin := base.origin
    pathname := resolvePathname (splitRef path).1 base
    searchParams := parseQuery (splitRef path).2 }

/-- The body of the `for (const queryKey of Object.keys(queryParams))`
loop: `searchParams.set(queryKey, queryParams[queryKey]?.toString() || "")`. -/
def applyCustomization (ps : List (String × String)) (kv : String × Option QueryValue) :
    List (String × String) :=
  setParam ps kv.1 (serializeParamValue kv.2)

/-- `createEmbeddedWalletIframeLink` from
src/utils/iFrameCommunication/EmbeddedWalletIframeCommunicator.ts, with the
fixed base location made an explicit argument; the customization mapping is
a key-ordered association list (JS object iteration order), a `none` value
standing for `undefined`. -/
def createEmbeddedWalletIframeLink (clientId path : String)
    (queryParams : Option (List (String × Option QueryValue))) (base : URL) : URL :=
  let u0 := newURL path base
  let u1 : URL := { u0 with searchParams := setParam u0.searchParams "clientId" clientId }
  match queryParams with
  | none => u1
  | some qps =>
      { u1 with searchParams := qps.foldl applyCustomization u1.searchParams }

/-- Modelled from the spec: the fixed base location (`PAPER_APP_URL` lives
in src/constants/settings.ts, which is not among the available sources). -/
def PAPER_APP_URL : URL :=
  { origin := "https://paper.xyz", pathname := "/", searchParams := [] }

/-- Modelled from the spec: the fixed embedded-wallet path
(`EMBEDDED_WALLET_PATH` lives in src/constants/settings.ts, which is not
among the available sources); the spec scenario loads `"/embedded"`. -/
def EMBEDDED_WALLET_PATH : String := "/embedded"

/-- src: `export const EMBEDDED_WALLET_IFRAME_ID = "paper-embedded-wallet-iframe"`. -/
def EMBEDDED_WALLET_IFRAME_ID : String := "paper-embedded-wallet-iframe"

/-- src: `export const EMBEDDED_WALLET_MODAL_UI_IFRAME_ID = "paper-embedded-wallet-modal-iframe"`. -/
def EMBEDDED_WALLET_MODAL_UI_IFRAME_ID : String := "paper-embedded-wallet-modal-iframe"

/-- The arguments each communicator passes to the base-class constructor
(the parts the claims observe). -/
structure IframeCommunicatorConfig where
  iframeId : String
  link : URL
deriving DecidableEq

/-- The `super({...})` call of `EmbeddedWalletIframeCommunicator`. -/
def EmbeddedWalletIframeCommunicator.config (clientId : String)
    (customizationOptions : Option (List (String × Option QueryValue))) :
    IframeCommunicatorConfig :=
  { iframeId := EMBEDDED_WALLET_IFRAME_ID
    link := createEmbeddedWalletIframeLink clientId EMBEDDED_WALLET_PATH
      customizationOptions PAPER_APP_URL }

/-- The `super({...})` call of `EmbeddedWalletUiIframeCommunicator`. -/
def EmbeddedWalletUiIframeCommunicator.config (clientId path : String)
    (customizationOptions : Option (List (String × Option QueryValue))) :
    IframeCommunicatorConfig :=
  { iframeId := EMBEDDED_WALLET_MODAL_UI_IFRAME_ID
    link := createEmbeddedWalletIframeLink clientId path
      customizationOptions PAPER_APP_URL }

/-! ### Wallet layer (src/lib/EmbeddedWallets/EmbeddedWallet.ts) -/

/-- The `Chain` union of the interfaces is a string union. -/
abbrev Chain := String

/-- `GaslessTransactionMaker` as constructed by `EmbeddedWallet`: it keeps
the chain, clientId and querier it was built with; the querier object is
identified by an opaque tag. -/
structure GaslessTransactionMaker where
  chain : Chain
  clientId : String
  querierId : Nat
deriving DecidableEq

/-- `LocalStorage` handle: scoped to a clientId. -/
structure LocalStorage where
  clientId : String
deriving DecidableEq

/-- The fields of `EmbeddedWallet` the claims observe. -/
structure EmbeddedWallet where
  clientId : String
  chain : Chain
  querierId : Nat
  gasless : GaslessTransactionMaker
  localStorage : LocalStorage
deriving DecidableEq

/-- The `EmbeddedWallet` constructor. -/
def EmbeddedWallet.create (clientId : String) (chain : Chain) (querierId : Nat) :
    EmbeddedWallet :=
  { clientId := clientId, chain := chain, querierId := querierId
    gasless := { chain := chain, clientId := clientId, querierId := querierId }
    localStorage := { clientId := clientId } }

/-- The user payload of a `getUserStatus` RPC response. -/
structure RpcUser where
  authDetails : String
  walletAddress : String
deriving DecidableEq

/-- `UserWalletStatus` enum. -/
inductive UserWalletStatus where
  | LOGGED_OUT
  | LOGGED_IN_WALLET_UNINITIALIZED
  | LOGGED_IN_NEW_DEVICE
  | LOGGED_IN_WALLET_INITIALIZED
deriving DecidableEq

/-- `GetUserWalletStatusRpcReturnType`: what the iframe returns. -/
structure GetUserWalletStatusRpcReturnType where
  status : UserWalletStatus
  user : RpcUser
deriving DecidableEq

/-- `GetUserWalletStatusFnReturnType`: what `getUserWalletStatus` returns;
`wallet` is populated only in the `LOGGED_IN_WALLET_INITIALIZED` arm. -/
structure GetUserWalletStatusFnReturnType where
  status : UserWalletStatus
  user : RpcUser
  wallet : Option EmbeddedWallet
deriving DecidableEq

/-- One remote call issued through the querier: `{procedureName, params}`;
`params = none` models `undefined`. -/
structure RpcCall where
  procedureName : String
  params : Option String
deriving DecidableEq

/-- `EmbeddedWallet.getUserWalletStatus`: one `getUserStatus` call with
`params: undefined`; on `LOGGED_IN_WALLET_INITIALIZED` it spreads the
user's fields and adds `wallet: this`; otherwise it returns the RPC
response unchanged. The querier is an oracle from calls to responses and
the list of issued calls is returned alongside the result. -/
def EmbeddedWallet.getUserWalletStatus (w : EmbeddedWallet)
    (querier : String → Option String → GetUserWalletStatusRpcReturnType) :
    GetUserWalletStatusFnReturnType × List RpcCall :=
  let userStatus := querier "getUserStatus" none
  if userStatus.status = UserWalletStatus.LOGGED_IN_WALLET_INITIALIZED then
    ({ status := UserWalletStatus.LOGGED_IN_WALLET_INITIALIZED
       user := userStatus.user, wallet := some w },
     [{ procedureName := "getUserStatus", params := none }])
  else
    ({ status := userStatus.status, user := userStatus.user, wallet := none },
     [{ procedureName := "getUserStatus", params := none }])

/-- `SetUpWalletRpcReturnType`. -/
structure SetUpWalletRpcReturnType where
  deviceShareStored : String
  walletAddress : String
  isIframeStorageEnabled : Bool
deriving DecidableEq

/-- `WalletAddressObjectType`. -/
structure WalletAddressObjectType where
  walletAddress : String
deriving DecidableEq

/-- The site-local storage of device shares, keyed by clientId. -/
abbrev DeviceShareStore := List (String × String)

/-- Modelled from the spec: `LocalStorage.saveDeviceShare` persists the
device share under this handle's client scope (the `LocalStorage` class of
src/utils/Storage/LocalStorage.ts is not among the available sources; the
spec has collaborators "persist small key/value state outside this layer"). -/
def LocalStorage.saveDeviceShare (ls : LocalStorage) (store : DeviceShareStore)
    (share : String) : DeviceShareStore :=
  (ls.clientId, share) :: store.filter (fun p => !(p.1 == ls.clientId))

/-- Look a client's stored device share up. -/
def getDeviceShareFor : DeviceShareStore → String → Option String
  | [], _ => none
  | p :: ps, clientId => if p.1 == clientId then some p.2 else getDeviceShareFor ps clientId

/-- `EmbeddedWallet.postWalletSetUp`: saves the device share into the
client-scoped local storage when `isIframeStorageEnabled` is false, and
returns `{ walletAddress }`. -/
def EmbeddedWallet.postWalletSetUp (w : EmbeddedWallet)
    (input : SetUpWalletRpcReturnType) (store : DeviceShareStore) :
    WalletAddressObjectType × DeviceShareStore :=
  let storeAfter :=
    if !input.isIframeStorageEnabled then
      w.localStorage.saveDeviceShare store input.deviceShareStored
    else store
  ({ walletAddress := input.walletAddress }, storeAfter)

/-- `EmbeddedWallet.setChain`: sets `this.chain` and replaces `this.gasless`
with a `GaslessTransactionMaker` built from the new chain and the wallet's
own clientId and querier; it issues no remote call (empty call list). -/
def EmbeddedWallet.setChain (w : EmbeddedWallet) (chain : Chain) :
    EmbeddedWallet × List RpcCall :=
  ({ w with
      chain := chain
      gasless := { chain := chain, clientId := w.clientId, querierId := w.querierId } },
   [])

/-! ### Cross-context RPC channel (modelled from the spec)

The base class `IframeCommunicator` that implements the readiness
handshake, the one-shot initialization payload and `close()` is not among
the available sources; the state machine below is modelled from the spec
(sections 3, 4.1 and the teardown paragraph). -/

/-- Channel lifecycle state: `UNATTACHED → LOADING → READY → CLOSED`. -/
inductive ChannelState where
  | UNATTACHED
  | LOADING
  | READY
  | CLOSED
deriving DecidableEq

/-- How a pending call settles. -/
inductive CallOutcome where
  | success
  | remoteError
  | timedOut
  | channelClosed
deriving DecidableEq

/-- Modelled from the spec: the observable channel state — lifecycle
position, how often the caller-supplied initializer
(`onIframeLoadedInitVariables`) has been invoked, how often the resulting
Initialization Payload has been sent, the correlation ids of pending calls,
and the settlements produced so far. -/
structure Channel where
  state : ChannelState
  initializerInvocations : Nat
  initPayloadsSent : Nat
  pending : List Nat
  settled : List (Nat × CallOutcome)
deriving DecidableEq

/-- A channel whose embedded surface is loading: no readiness signal seen,
nothing sent, nothing pending. -/
def Channel.fresh : Channel :=
  { state := ChannelState.LOADING
    initializerInvocations := 0
    initPayloadsSent := 0
    pending := []
    settled := [] }

/-- Modelled from the spec: receipt of a readiness signal. On first
receipt the channel transitions to `READY`, invokes the initializer and
sends the Initialization Payload; subsequent receipts are ignored, and a
`CLOSED` channel (listener detached) ignores the signal too. -/
def Channel.onReadinessSignal (c : Channel) : Channel :=
  match c.state with
  | ChannelState.READY => c
  | ChannelState.CLOSED => c
  | _ =>
      { c with
          state := ChannelState.READY
          initializerInvocations := c.initializerInvocations + 1
          initPayloadsSent := c.initPayloadsSent + 1 }

/-- Modelled from the spec: `close()` detaches the listener, transitions
to `CLOSED`, and rejects every pending call with `ChannelClosed`. -/
def Channel.close (c : Channel) : Channel :=
  { c with
      state := ChannelState.CLOSED
      pending := []
      settled := c.settled ++ c.pending.map (fun i => (i, CallOutcome.channelClosed)) }

/-- The channel-lifecycle events the claims quantify over. -/
inductive ChannelEvent where
  | readiness
  | closeReq
deriving DecidableEq

/-- Apply one event. -/
def Channel.step (c : Channel) : ChannelEvent → Channel
  | ChannelEvent.readiness => c.onReadinessSignal
  | ChannelEvent.closeReq => c.close

/-- Run a sequence of events. -/
def Channel.run (evts : List ChannelEvent) (c : Channel) : Channel :=
  evts.foldl Channel.step c

/-- Receive `n` readiness signals on a fresh channel. -/
def Channel.afterSignals (n : Nat) : Channel :=
  Channel.run (List.replicate n ChannelEvent.readiness) Channel.fresh

/-- The one-shot counters stay within the spec's bounds, and a channel
that has not yet seen a readiness signal has sent nothing. -/
def Channel.counterInv (c : Channel) : Prop :=
  c.initializerInvocations ≤ 1 ∧ c.initPayloadsSent ≤ 1 ∧
  ((c.state = ChannelState.UNATTACHED ∨ c.state = ChannelState.LOADING) →
    c.initializerInvocations = 0 ∧ c.initPayloadsSent = 0)

/-- State-passing reading of the resolver: its body performs no read or
write of any ambient mutable state, so a world of any type `σ` threads
through unchanged. -/
def createEmbeddedWalletIframeLinkIn {σ : Type} (clientId path : String)
    (queryParams : Option (List (String × Option QueryValue))) (base : URL)
    (world : σ) : URL × σ :=
  (createEmbeddedWalletIframeLink clientId path queryParams base, world)

/-- A querier oracle answering every call with `LOGGED_OUT`. -/
def statusQuerier : String → Option String → GetUserWalletStatusRpcReturnType :=
  fun _ _ =>
    { status := UserWalletStatus.LOGGED_OUT
      user := { authDetails := "a", walletAddress := "0xabc" } }

/-- A ready channel with two calls outstanding. -/
def pendingChannel : Channel :=
  { state := ChannelState.READY
    initializerInvocations := 1
    initPayloadsSent := 1
    pending := [7, 9]
    settled := [] }

end EmbeddedWalletSDK

namespace EmbeddedWalletSDK

/-! ### Lemmas on the query-parameter operations -/

theorem getParam_cons (p : String × String) (ps : List (String × String)) (k : String) :
    getParam (p :: ps) k = if p.1 = k then some p.2 else getParam ps k := by
  by_cases h : p.1 = k <;> simp [getParam, h]

theorem setParam_cons (p : String × String) (ps : List (String × String)) (k v : String) :
    setParam (p :: ps) k v
      = if p.1 = k then (k, v) :: removeParam ps k else p :: setParam ps k v := by
  by_cases h : p.1 = k <;> simp [setParam, h]

theorem removeParam_cons (p : String × String) (ps : List (String × String)) (k : String) :
    removeParam (p :: ps) k
      = if p.1 = k then removeParam ps k else p :: removeParam ps k := by
  by_cases h : p.1 = k <;> simp [removeParam, List.filter_cons, h]

theorem getParam_setParam_self (ps : List (String × String)) (k v : String) :
    getParam (setParam ps k v) k = some v := by
  induction ps with
  | nil => simp [setParam, getParam]
  | cons p ps ih =>
      rw [setParam_cons]
      by_cases h : p.1 = k
      · rw [if_pos h, getParam_cons, if_pos rfl]
      · rw [if_neg h, getParam_cons, if_neg h, ih]

theorem getParam_removeParam (ps : List (String × String)) (k k' : String)
    (h : k ≠ k') : getParam (removeParam ps k') k = getParam ps k := by
  induction ps with
  | nil => rfl
  | cons p ps ih =>
      rw [removeParam_cons, getParam_cons]
      by_cases hp : p.1 = k'
      · rw [if_pos hp, ih]
        have hk : ¬p.1 = k := by rw [hp]; exact Ne.symm h
        rw [if_neg hk]
      · rw [if_neg hp, getParam_cons]
        by_cases hk : p.1 = k
        · rw [if_pos hk, if_pos hk]
        · rw [if_neg hk, if_neg hk, ih]

theorem getParam_setParam_of_ne (ps : List (String × String)) (k k' v : String)
    (h : k ≠ k') : getParam (setParam ps k' v) k = getParam ps k := by
  induction ps with
  | nil =>
      show getParam [(k', v)] k = getParam [] k
      rw [getParam_cons, if_neg (Ne.symm h : ¬(k', v).1 = k)]
  | cons p ps ih =>
      rw [setParam_cons]
      by_cases hp : p.1 = k'
      · rw [if_pos hp, getParam_cons, if_neg (Ne.symm h : ¬(k', v).1 = k), getParam_cons]
        have hk : ¬p.1 = k := by rw [hp]; exact Ne.symm h
        rw [if_neg hk]
        exact getParam_removeParam ps k k' h
      · rw [if_neg hp, getParam_cons, getParam_cons]
        by_cases hk : p.1 = k
        · rw [if_pos hk, if_pos hk]
        · rw [if_neg hk, if_neg hk, ih]

theorem mem_of_getParam_eq_some (ps : List (String × String)) (k v : String)
    (h : getParam ps k = some v) : (k, v) ∈ ps := by
  induction ps with
  | nil => simp [getParam] at h
  | cons p ps ih =>
      rw [getParam_cons] at h
      by_cases hp : p.1 = k
      · rw [if_pos hp] at h
        exact List.mem_cons.mpr (Or.inl (Prod.ext hp.symm (Option.some.inj h).symm))
      · rw [if_neg hp] at h
        exact List.mem_cons_of_mem _ (ih h)

theorem getParam_foldl_of_not_mem (qps : List (String × Option QueryValue))
    (ps : List (String × String)) (k : String)
    (h : k ∉ qps.map Prod.fst) :
    getParam (qps.foldl applyCustomization ps) k = getParam ps k := by
  induction qps generalizing ps with
  | nil => rfl
  | cons kv qps ih =>
      simp only [List.map_cons, List.mem_cons, not_or] at h
      simp only [List.foldl_cons]
      rw [ih _ h.2]
      exact getParam_setParam_of_ne _ _ _ _ h.1

theorem getParam_foldl_of_mem (qps : List (String × Option QueryValue))
    (ps : List (String × String)) (k : String) (v : Option QueryValue)
    (hnd : (qps.map Prod.fst).Nodup) (hm : (k, v) ∈ qps) :
    getParam (qps.foldl applyCustomization ps) k = some (serializeParamValue v) := by
  induction qps generalizing ps with
  | nil => simp at hm
  | cons kv qps ih =>
      obtain ⟨k1, v1⟩ := kv
      simp only [List.map_cons, List.nodup_cons] at hnd
      simp only [List.foldl_cons]
      rcases List.mem_cons.mp hm with he | ht
      · rw [Prod.mk.injEq] at he
        obtain ⟨rfl, rfl⟩ := he
        rw [getParam_foldl_of_not_mem _ _ _ hnd.1]
        exact getParam_setParam_self _ _ _
      · exact ih (applyCustomization ps (k1, v1)) hnd.2 ht

/-! ### Lemmas on the channel state machine -/

theorem counterInv_step (c : Channel) (e : ChannelEvent) (h : c.counterInv) :
    (c.step e).counterInv := by
  cases e with
  | readiness =>
      cases hs : c.state with
      | UNATTACHED =>
          have h0 := h.2.2 (Or.inl hs)
          simp [Channel.step, Channel.onReadinessSignal, Channel.counterInv, hs, h0]
      | LOADING =>
          have h0 := h.2.2 (Or.inr hs)
          simp [Channel.step, Channel.onReadinessSignal, Channel.counterInv, hs, h0]
      | READY => simpa [Channel.step, Channel.onReadinessSignal, hs] using h
      | CLOSED => simpa [Channel.step, Channel.onReadinessSignal, hs] using h
  | closeReq =>
      exact ⟨h.1, h.2.1, by simp [Channel.step, Channel.close]⟩

theorem counterInv_run (evts : List ChannelEvent) (c : Channel) (h : c.counterInv) :
    (Channel.run evts c).counterInv := by
  induction evts generalizing c with
  | nil => exact h
  | cons e evts ih =>
      simp only [Channel.run, List.foldl_cons]
      exact ih _ (counterInv_step c e h)

theorem counterInv_fresh : Channel.fresh.counterInv := by
  refine ⟨by simp [Channel.fresh], by simp [Channel.fresh], fun _ => ?_⟩
  simp [Channel.fresh]

theorem onReadinessSignal_of_ready (c : Channel)
    (h : c.state = ChannelState.READY) : c.onReadinessSignal = c := by
  simp [Channel.onReadinessSignal, h]

theorem run_replicate_readiness_of_ready (n : Nat) (c : Channel)
    (h : c.state = ChannelState.READY) :
    Channel.run (List.replicate n ChannelEvent.readiness) c = c := by
  induction n with
  | zero => rfl
  | succ n ih =>
      rw [List.replicate_succ]
      simp only [Channel.run, List.foldl_cons]
      have : c.step ChannelEvent.readiness = c := onReadinessSignal_of_ready c h
      rw [this]
      exact ih

theorem afterSignals_succ (n : Nat) :
    Channel.afterSignals (n + 1) = Channel.fresh.onReadinessSignal := by
  unfold Channel.afterSignals
  rw [List.replicate_succ]
  simp only [Channel.run, List.foldl_cons]
  exact run_replicate_readiness_of_ready n _ rfl

/-! ### The claims -/

/-- C1: on every channel, the caller-supplied initializer
(`onIframeLoadedInitVariables`) runs exactly once however many (≥ 1)
readiness signals the embedded context emits, and the Initialization
Payload is sent at most once over any lifetime of readiness and close
events. -/
theorem c1_initializer_exactly_once (n : Nat) (h : 1 ≤ n) :
    (Channel.afterSignals n).initializerInvocations = 1 ∧
    (Channel.afterSignals n).initPayloadsSent = 1 ∧
    ∀ evts : List ChannelEvent,
      (Channel.run evts Channel.fresh).initPayloadsSent ≤ 1 := by
  obtain ⟨m, rfl⟩ : ∃ m, n = m + 1 := ⟨n - 1, by omega⟩
  refine ⟨?_, ?_, fun evts => (counterInv_run evts Channel.fresh counterInv_fresh).2.1⟩
  · rw [afterSignals_succ]; rfl
  · rw [afterSignals_succ]; rfl

theorem c1_initializer_exactly_once_witness :
    (Channel.afterSignals 3).initializerInvocations = 1 ∧
    (Channel.afterSignals 3).initPayloadsSent = 1 ∧
    (Channel.run [ChannelEvent.readiness, ChannelEvent.closeReq, ChannelEvent.readiness]
        Channel.fresh).initPayloadsSent ≤ 1 :=
  ⟨(c1_initializer_exactly_once 3 (by decide)).1,
   (c1_initializer_exactly_once 3 (by decide)).2.1,
   (c1_initializer_exactly_once 3 (by decide)).2.2
     [ChannelEvent.readiness, ChannelEvent.closeReq, ChannelEvent.readiness]⟩

/-- C2: `close()` transitions the channel to `CLOSED`, settles every
still-pending call with `ChannelClosed`, and closing an already-closed
channel changes nothing. -/
theorem c2_close_idempotent_rejects_pending (c : Channel) :
    (c.close).state = ChannelState.CLOSED ∧
    (∀ i, i ∈ c.pending → (i, CallOutcome.channelClosed) ∈ (c.close).settled) ∧
    c.close.close = c.close := by
  refine ⟨rfl, fun i hi => ?_, ?_⟩
  · simp only [Channel.close, List.mem_append, List.mem_map]
    exact Or.inr ⟨i, hi, rfl⟩
  · simp [Channel.close]

theorem c2_close_idempotent_rejects_pending_witness :
    (pendingChannel.close).state = ChannelState.CLOSED ∧
    (7, CallOutcome.channelClosed) ∈ (pendingChannel.close).settled ∧
    pendingChannel.close.close = pendingChannel.close :=
  ⟨(c2_close_idempotent_rejects_pending pendingChannel).1,
   (c2_close_idempotent_rejects_pending pendingChannel).2.1 7 (by decide),
   (c2_close_idempotent_rejects_pending pendingChannel).2.2⟩

/-- C3: a customization key carried with an `undefined` value is set as a
query parameter whose value is the empty string, not omitted. -/
theorem c3_undefined_serializes_as_empty (clientId path : String)
    (qps : List (String × Option QueryValue)) (base : URL) (k : String)
    (hnd : (qps.map Prod.fst).Nodup)
    (hk : (k, (none : Option QueryValue)) ∈ qps) :
    (k, "") ∈ (createEmbeddedWalletIframeLink clientId path (some qps) base).searchParams := by
  apply mem_of_getParam_eq_some
  show getParam (qps.foldl applyCustomization _) k = some ""
  have h := getParam_foldl_of_mem qps
    (setParam (newURL path base).searchParams "clientId" clientId) k none hnd hk
  simpa [serializeParamValue] using h

theorem c3_undefined_serializes_as_empty_witness :
    ([("theme", (none : Option QueryValue))].map Prod.fst).Nodup ∧
    ("theme", (none : Option QueryValue)) ∈ [("theme", (none : Option QueryValue))] ∧
    ("theme", "") ∈ (createEmbeddedWalletIframeLink "cid" "/embedded"
        (some [("theme", (none : Option QueryValue))]) PAPER_APP_URL).searchParams :=
  ⟨by decide, by decide,
   c3_undefined_serializes_as_empty "cid" "/embedded"
     [("theme", (none : Option QueryValue))] PAPER_APP_URL "theme"
     (by decide) (by decide)⟩

/-- C4 as stated is false: a customization entry keyed `clientId`
overrides the identity token (claim C5), so the produced address need not
carry the identity token under `clientId`. Concretely, with identity
`"cid123"` and customization `{clientId: "zzz"}` the address's parameters
are `[("clientId", "zzz")]`. -/
theorem c4_counterexample :
    ("clientId", "cid123") ∉
      (createEmbeddedWalletIframeLink "cid123" "/embedded"
        (some [("clientId", some (QueryValue.str "zzz"))]) PAPER_APP_URL).searchParams := by
  intro h
  have e : (createEmbeddedWalletIframeLink "cid123" "/embedded"
      (some [("clientId", some (QueryValue.str "zzz"))]) PAPER_APP_URL).searchParams
      = [("clientId", "zzz")] := rfl
  rw [e] at h
  exact absurd (List.mem_singleton.mp h) (by decide)

/-- C4 (amended): the `"cid123"`/`"/embedded"`/`{theme: "dark"}` scenario
produces `clientId=cid123` and `theme=dark` for every base location, and
for every input whose customization keys are pairwise distinct and do not
include `clientId`, the address carries the identity token under
`clientId` plus one query parameter per customization key. -/
theorem c4_resolver_query_parameters (clientId path : String)
    (qps : List (String × Option QueryValue)) (base : URL)
    (hnd : (qps.map Prod.fst).Nodup) (hcid : "clientId" ∉ qps.map Prod.fst) :
    (("clientId", "cid123") ∈ (createEmbeddedWalletIframeLink "cid123" "/embedded"
        (some [("theme", some (QueryValue.str "dark"))]) base).searchParams ∧
     ("theme", "dark") ∈ (createEmbeddedWalletIframeLink "cid123" "/embedded"
        (some [("theme", some (QueryValue.str "dark"))]) base).searchParams) ∧
    ("clientId", clientId) ∈
      (createEmbeddedWalletIframeLink clientId path (some qps) base).searchParams ∧
    ∀ kv ∈ qps, (kv.1, serializeParamValue kv.2) ∈
      (createEmbeddedWalletIframeLink clientId path (some qps) base).searchParams := by
  have e : (createEmbeddedWalletIframeLink "cid123" "/embedded"
      (some [("theme", some (QueryValue.str "dark"))]) base).searchParams
      = [("clientId", "cid123"), ("theme", "dark")] := rfl
  refine ⟨⟨by rw [e]; exact List.mem_cons_self _ _,
           by rw [e]; exact List.mem_cons_of_mem _ (List.mem_cons_self _ _)⟩, ?_, ?_⟩
  · apply mem_of_getParam_eq_some
    show getParam (qps.foldl applyCustomization _) "clientId" = some clientId
    rw [getParam_foldl_of_not_mem _ _ _ hcid, getParam_setParam_self]
  · intro kv hkv
    apply mem_of_getParam_eq_some
    show getParam (qps.foldl applyCustomization _) kv.1 = some (serializeParamValue kv.2)
    exact getParam_foldl_of_mem qps _ kv.1 kv.2 hnd (by simpa using hkv)

theorem c4_resolver_query_parameters_witness :
    (([("theme", some (QueryValue.str "dark"))].map
        (Prod.fst (α := String) (β := Option QueryValue))).Nodup ∧
     "clientId" ∉ [("theme", some (QueryValue.str "dark"))].map
        (Prod.fst (α := String) (β := Option QueryValue))) ∧
    ("clientId", "cid123") ∈ (createEmbeddedWalletIframeLink "cid123" "/embedded"
        (some [("theme", some (QueryValue.str "dark"))]) PAPER_APP_URL).searchParams ∧
    ("theme", "dark") ∈ (createEmbeddedWalletIframeLink "cid123" "/embedded"
        (some [("theme", some (QueryValue.str "dark"))]) PAPER_APP_URL).searchParams :=
  ⟨⟨by decide, by decide⟩,
   (c4_resolver_query_parameters "cid123" "/embedded"
      [("theme", some (QueryValue.str "dark"))] PAPER_APP_URL
      (by decide) (by decide)).1.1,
   (c4_resolver_query_parameters "cid123" "/embedded"
      [("theme", some (QueryValue.str "dark"))] PAPER_APP_URL
      (by decide) (by decide)).1.2⟩

/-- C5: when the same key is set repeatedly while building the address the
later value wins, and in particular a customization entry keyed `clientId`
determines the final `clientId` parameter, whatever the identity token
was. -/
theorem c5_later_set_wins (ps : List (String × String)) (k v1 v2 : String)
    (clientId path : String) (base : URL) (v : Option QueryValue)
    (rest : List (String × Option QueryValue))
    (hrest : "clientId" ∉ rest.map Prod.fst) :
    getParam (setParam (setParam ps k v1) k v2) k = some v2 ∧
    getParam (createEmbeddedWalletIframeLink clientId path
        (some (("clientId", v) :: rest)) base).searchParams "clientId"
      = some (serializeParamValue v) := by
  refine ⟨getParam_setParam_self _ _ _, ?_⟩
  show getParam ((("clientId", v) :: rest).foldl applyCustomization _) "clientId"
      = some (serializeParamValue v)
  rw [List.foldl_cons, getParam_foldl_of_not_mem _ _ _ hrest, applyCustomization,
    getParam_setParam_self]

theorem c5_later_set_wins_witness :
    getParam (setParam (setParam [] "k" "old") "k" "new") "k" = some "new" ∧
    getParam (createEmbeddedWalletIframeLink "cid123" "/embedded"
        (some [("clientId", some (QueryValue.str "zzz"))]) PAPER_APP_URL).searchParams
        "clientId" = some "zzz" :=
  ⟨(c5_later_set_wins [] "k" "old" "new" "cid123" "/embedded" PAPER_APP_URL
      (some (QueryValue.str "zzz")) [] (by decide)).1,
   (c5_later_set_wins [] "k" "old" "new" "cid123" "/embedded" PAPER_APP_URL
      (some (QueryValue.str "zzz")) [] (by decide)).2⟩

/-- C6: every channel built by `EmbeddedWalletIframeCommunicator` uses the
fixed iframe id `paper-embedded-wallet-iframe`, every channel built by
`EmbeddedWalletUiIframeCommunicator` uses
`paper-embedded-wallet-modal-iframe`, and the two identities differ. -/
theorem c6_distinct_iframe_ids :
    (∀ clientId qp, (EmbeddedWalletIframeCommunicator.config clientId qp).iframeId
        = "paper-embedded-wallet-iframe") ∧
    (∀ clientId path qp,
        (EmbeddedWalletUiIframeCommunicator.config clientId path qp).iframeId
        = "paper-embedded-wallet-modal-iframe") ∧
    EMBEDDED_WALLET_IFRAME_ID ≠ EMBEDDED_WALLET_MODAL_UI_IFRAME_ID :=
  ⟨fun _ _ => rfl, fun _ _ _ => rfl, by decide⟩

/-- C7: the resolver is deterministic — equal identity token, path and
customization mapping give equal addresses — and, read as a state-passing
computation, it leaves every world unchanged and its result does not
depend on the world. -/
theorem c7_resolver_deterministic_stateless {σ : Type}
    (clientId clientId' path path' : String)
    (qps qps' : Option (List (String × Option QueryValue))) (base base' : URL)
    (w w' : σ)
    (hc : clientId = clientId') (hp : path = path') (hq : qps = qps')
    (hb : base = base') :
    (createEmbeddedWalletIframeLinkIn clientId path qps base w).1
      = (createEmbeddedWalletIframeLinkIn clientId' path' qps' base' w').1 ∧
    (createEmbeddedWalletIframeLinkIn clientId path qps base w).2 = w := by
  subst hc hp hq hb
  exact ⟨rfl, rfl⟩

theorem c7_resolver_deterministic_stateless_witness :
    (createEmbeddedWalletIframeLinkIn "cid" "/embedded"
        (none : Option (List (String × Option QueryValue))) PAPER_APP_URL (0 : Nat)).1
      = (createEmbeddedWalletIframeLinkIn "cid" "/embedded"
        (none : Option (List (String × Option QueryValue))) PAPER_APP_URL (1 : Nat)).1 ∧
    (createEmbeddedWalletIframeLinkIn "cid" "/embedded"
        (none : Option (List (String × Option QueryValue))) PAPER_APP_URL (0 : Nat)).2 = 0 :=
  c7_resolver_deterministic_stateless "cid" "cid" "/embedded" "/embedded"
    none none PAPER_APP_URL PAPER_APP_URL 0 1 rfl rfl rfl rfl

/-- C8: `getUserWalletStatus` issues exactly one `getUserStatus` call with
`undefined` params; on `LOGGED_IN_WALLET_INITIALIZED` it returns that
status with the user's fields preserved and `wallet` set to the wallet
itself, and on every other status it returns the remote response
unchanged. -/
theorem c8_getUserWalletStatus (w : EmbeddedWallet)
    (querier : String → Option String → GetUserWalletStatusRpcReturnType) :
    (w.getUserWalletStatus querier).2
        = [{ procedureName := "getUserStatus", params := none }] ∧
    ((querier "getUserStatus" none).status = UserWalletStatus.LOGGED_IN_WALLET_INITIALIZED →
      (w.getUserWalletStatus querier).1 =
        { status := UserWalletStatus.LOGGED_IN_WALLET_INITIALIZED
          user := (querier "getUserStatus" none).user
          wallet := some w }) ∧
    ((querier "getUserStatus" none).status ≠ UserWalletStatus.LOGGED_IN_WALLET_INITIALIZED →
      (w.getUserWalletStatus querier).1 =
        { status := (querier "getUserStatus" none).status
          user := (querier "getUserStatus" none).user
          wallet := none }) := by
  unfold EmbeddedWallet.getUserWalletStatus
  by_cases h : (querier "getUserStatus" none).status
      = UserWalletStatus.LOGGED_IN_WALLET_INITIALIZED <;>
    simp [h]

theorem c8_getUserWalletStatus_witness :
    ((EmbeddedWallet.create "c" "Polygon" 0).getUserWalletStatus statusQuerier).2
        = [{ procedureName := "getUserStatus", params := none }] ∧
    ((EmbeddedWallet.create "c" "Polygon" 0).getUserWalletStatus statusQuerier).1
        = { status := UserWalletStatus.LOGGED_OUT
            user := { authDetails := "a", walletAddress := "0xabc" }
            wallet := none } :=
  ⟨(c8_getUserWalletStatus (EmbeddedWallet.create "c" "Polygon" 0) statusQuerier).1,
   (c8_getUserWalletStatus (EmbeddedWallet.create "c" "Polygon" 0) statusQuerier).2.2
     (by decide)⟩

/-- C9: `postWalletSetUp` saves the device share into the client-scoped
local storage exactly when `isIframeStorageEnabled` is false, and always
returns the `walletAddress` it was given. -/
theorem c9_postWalletSetUp (w : EmbeddedWallet) (input : SetUpWalletRpcReturnType)
    (store : DeviceShareStore) :
    (w.postWalletSetUp input store).1.walletAddress = input.walletAddress ∧
    (input.isIframeStorageEnabled = false →
      (w.postWalletSetUp input store).2
          = w.localStorage.saveDeviceShare store input.deviceShareStored ∧
      getDeviceShareFor (w.postWalletSetUp input store).2 w.localStorage.clientId
          = some input.deviceShareStored) ∧
    (input.isIframeStorageEnabled = true →
      (w.postWalletSetUp input store).2 = store) := by
  unfold EmbeddedWallet.postWalletSetUp
  cases h : input.isIframeStorageEnabled <;>
    simp [h, LocalStorage.saveDeviceShare, getDeviceShareFor]

theorem c9_postWalletSetUp_witness :
    ((EmbeddedWallet.create "c" "Polygon" 0).postWalletSetUp
        { deviceShareStored := "share", walletAddress := "0xabc",
          isIframeStorageEnabled := false } []).1.walletAddress = "0xabc" ∧
    getDeviceShareFor ((EmbeddedWallet.create "c" "Polygon" 0).postWalletSetUp
        { deviceShareStored := "share", walletAddress := "0xabc",
          isIframeStorageEnabled := false } []).2 "c" = some "share" :=
  ⟨(c9_postWalletSetUp (EmbeddedWallet.create "c" "Polygon" 0)
      { deviceShareStored := "share", walletAddress := "0xabc",
        isIframeStorageEnabled := false } []).1,
   ((c9_postWalletSetUp (EmbeddedWallet.create "c" "Polygon" 0)
      { deviceShareStored := "share", walletAddress := "0xabc",
        isIframeStorageEnabled := false } []).2.1 rfl).2⟩

/-- C10: after `setChain`, the wallet's chain is the given chain and its
`gasless` is a fresh `GaslessTransactionMaker` bound to that chain and the
wallet's own clientId and querier; clientId, querier and local storage are
unchanged, and no remote call is issued. -/
theorem c10_setChain (w : EmbeddedWallet) (chain : Chain) :
    (w.setChain chain).1.chain = chain ∧
    (w.setChain chain).1.gasless
        = { chain := chain, clientId := w.clientId, querierId := w.querierId } ∧
    (w.setChain chain).1.clientId = w.clientId ∧
    (w.setChain chain).1.querierId = w.querierId ∧
    (w.setChain chain).1.localStorage = w.localStorage ∧
    (w.setChain chain).2 = [] :=
  ⟨rfl, rfl, rfl, rfl, rfl, rfl⟩

end EmbeddedWalletSDK
